import Mathlib

/-!
# Verification of the hit-counter relay and hello handler

Shallow embedding of the Lambda handlers of this repository:

* `lambdaHandlerTS` — the relay handler of `src/lambda/typescript/hitcounter.ts`
  (AWS SDK v3, `DynamoDBDocumentClient` + `LambdaClient`).
* `lambdaHandlerJS` — the relay handler of the JavaScript variant
  (`src/unnamed/part_000`, first document; AWS SDK v2, `DynamoDB` + `Lambda`).
* `helloLambdaHandler` — the downstream hello handler (`src/unnamed/part_000`,
  second and third documents; the JS and TS variants return identical values).

Modelling decisions:

* Lambda events are JSON values.  The handlers treat the event as an object with
  fields (`event.path`, `JSON.stringify(event)`), so the event parameter is
  modelled as a JSON object, i.e. a field list `EventObj`.  JavaScript property
  access `event.path` is association-list lookup returning `Option Json`
  (`none` models `undefined` for a missing field).
* The two collaborators (DynamoDB and the Lambda invoke API) are external
  services; each call's outcome is supplied as an oracle (`CallOutcomes`).
  The handler records every collaborator operation it issues in a trace
  (`Op`), and the durable table state is threaded explicitly (`Store`); a
  successful `UpdateCommand` with expression `ADD hits :incr` bumps the `hits`
  attribute of the addressed item by the given amount, creating it from an
  implicit 0 (DynamoDB `ADD` upsert semantics).
* Serialized bytes on the wire are modelled by `Wire`: `JSON.stringify`
  produces bytes that parse back to the same value (`Wire.jsonBytes`), and a
  byte sequence that is not valid JSON is `Wire.garbage`; `JSON.parse` is
  `parseWire`, and a thrown `SyntaxError` is the `none` result.
* A thrown exception makes the async handler reject; the three rejection
  causes are labelled by the spec's error taxonomy (`RelayError`):
  a failed DynamoDB send is `counterStoreError`, a failed Lambda invoke is
  `downstreamInvocationError`, and a `JSON.parse` failure on the downstream
  payload is `malformedDownstreamResponse`.
* Pure observability calls (`console.log`, `logger`, `tracer` annotations) have
  no effect on the store, the trace of collaborator calls, or the result, and
  are not modelled.  The CloudWatch metric emission (`metrics.addMetric('hit',
  Count, 1)`, line 45 of the TS file) is recorded in the trace as
  `Op.putMetric` since it sits between the two collaborator calls.
-/

/-- JSON values, the data the handlers exchange. -/
inductive Json where
  | null : Json
  | boolean : Bool → Json
  | number : Int → Json
  | str : String → Json
  | arr : List Json → Json
  | obj : List (String × Json) → Json

mutual

/-- Boolean equality on JSON values (written by hand: `Json` is a nested
inductive, so `deriving DecidableEq` is unavailable). -/
def Json.beq : Json → Json → Bool
  | .null, .null => true
  | .boolean a, .boolean b => a == b
  | .number a, .number b => a == b
  | .str a, .str b => a == b
  | .arr xs, .arr ys => Json.beqList xs ys
  | .obj xs, .obj ys => Json.beqFields xs ys
  | _, _ => false

/-- Elementwise `Json.beq` on lists. -/
def Json.beqList : List Json → List Json → Bool
  | [], [] => true
  | x :: xs, y :: ys => Json.beq x y && Json.beqList xs ys
  | _, _ => false

/-- Elementwise `Json.beq` on field lists. -/
def Json.beqFields : List (String × Json) → List (String × Json) → Bool
  | [], [] => true
  | (k, v) :: xs, (l, w) :: ys => k == l && Json.beq v w && Json.beqFields xs ys
  | _, _ => false

end

mutual

theorem Json.beq_refl : ∀ a : Json, Json.beq a a = true
  | .null => rfl
  | .boolean a => by simp [Json.beq]
  | .number a => by simp [Json.beq]
  | .str a => by simp [Json.beq]
  | .arr xs => by simp [Json.beq, Json.beqList_refl xs]
  | .obj xs => by simp [Json.beq, Json.beqFields_refl xs]

theorem Json.beqList_refl : ∀ xs : List Json, Json.beqList xs xs = true
  | [] => rfl
  | x :: xs => by simp [Json.beqList, Json.beq_refl x, Json.beqList_refl xs]

theorem Json.beqFields_refl : ∀ xs : List (String × Json), Json.beqFields xs xs = true
  | [] => rfl
  | (k, v) :: xs => by
    simp [Json.beqFields, Json.beq_refl v, Json.beqFields_refl xs]

end

mutual

theorem Json.eq_of_beq : ∀ a b : Json, Json.beq a b = true → a = b
  | .null, b => by cases b <;> simp [Json.beq]
  | .boolean a, b => by cases b <;> simp [Json.beq]
  | .number a, b => by cases b <;> simp [Json.beq]
  | .str a, b => by cases b <;> simp [Json.beq]
  | .arr xs, b => by
    cases b <;> simp [Json.beq]
    exact Json.eqList_of_beqList xs _
  | .obj xs, b => by
    cases b <;> simp [Json.beq]
    exact Json.eqFields_of_beqFields xs _

theorem Json.eqList_of_beqList : ∀ xs ys : List Json, Json.beqList xs ys = true → xs = ys
  | [], ys => by cases ys <;> simp [Json.beqList]
  | x :: xs, ys => by
    cases ys with
    | nil => simp [Json.beqList]
    | cons y ys =>
      simp only [Json.beqList, Bool.and_eq_true]
      rintro ⟨h1, h2⟩
      rw [Json.eq_of_beq x y h1, Json.eqList_of_beqList xs ys h2]

theorem Json.eqFields_of_beqFields :
    ∀ xs ys : List (String × Json), Json.beqFields xs ys = true → xs = ys
  | [], ys => by cases ys <;> simp [Json.beqFields]
  | (k, v) :: xs, ys => by
    cases ys with
    | nil => simp [Json.beqFields]
    | cons p ys =>
      obtain ⟨l, w⟩ := p
      simp only [Json.beqFields, Bool.and_eq_true, beq_iff_eq]
      rintro ⟨⟨h0, h1⟩, h2⟩
      rw [h0, Json.eq_of_beq v w h1, Json.eqFields_of_beqFields xs ys h2]

end

instance : DecidableEq Json := fun a b =>
  decidable_of_iff (Json.beq a b = true)
    ⟨Json.eq_of_beq a b, fun h => h ▸ Json.beq_refl a⟩

/-- A Lambda event as the handlers use it: a JSON object given by its fields.
JavaScript property access on it is `List.lookup`. -/
def EventObj : Type := List (String × Json)

instance : DecidableEq EventObj := inferInstanceAs (DecidableEq (List (String × Json)))

/-- Serialized bytes travelling between the relay and the downstream function.
`jsonBytes v` stands for any byte sequence that `JSON.parse` reads back as `v`
(in particular the output of `JSON.stringify v`); `garbage raw` stands for a
byte sequence that is not valid JSON. -/
inductive Wire where
  | jsonBytes : Json → Wire
  | garbage : String → Wire
  deriving DecidableEq

/-- Model of `JSON.parse` on wire bytes: a thrown `SyntaxError` is `none`. -/
def parseWire : Wire → Option Json
  | .jsonBytes v => some v
  | .garbage _ => none

/-- Model of `JSON.stringify` on a JSON value. -/
def stringifyJson (v : Json) : Wire := Wire.jsonBytes v

/-- The durable counter state: for a table name and a DynamoDB key value
(the JSON value stored under the key attribute `path`; `none` models the
JavaScript `undefined` produced by `event.path` on a path-less event), the
current value of the item's `hits` attribute.  A missing item or attribute is
the implicit 0 that DynamoDB `ADD` starts from. -/
def Store : Type := String → Option Json → Nat

/-- Effect of a successful `UpdateCommand`/`updateItem` with update expression
`ADD hits :incr` on table `table`, key attribute `path = key`: the `hits`
attribute of that item grows by `amount`, created from 0 if absent (upsert);
every other item, and every other table, is untouched. -/
def applyAddHits (store : Store) (table : String) (key : Option Json)
    (amount : Nat) : Store :=
  fun t k => if t = table ∧ k = key then store t k + amount else store t k

/-- One collaborator operation issued by a handler, in issue order.
`updateItemAddHits` is the DynamoDB update (table, key attribute value,
update expression, increment amount); `putMetric` is the CloudWatch metric
emission; `invoke` is the downstream Lambda invocation with its serialized
payload. -/
inductive Op where
  | updateItemAddHits : String → Option Json → String → Nat → Op
  | putMetric : String → Nat → Op
  | invoke : String → Wire → Op
  deriving DecidableEq

/-- Does this trace entry mutate the durable counter store? -/
def Op.isCounterMutation : Op → Bool
  | .updateItemAddHits _ _ _ _ => true
  | _ => false

/-- Is this trace entry a downstream invocation? -/
def Op.isInvoke : Op → Bool
  | .invoke _ _ => true
  | _ => false

/-- The response object returned by a successful Lambda invoke call:
`Payload` models `resp.Payload`, which the AWS SDK may leave `undefined`. -/
structure InvokeResponse where
  Payload : Option Wire
  deriving DecidableEq

instance {ε α : Type} [DecidableEq ε] [DecidableEq α] : DecidableEq (Except ε α) := fun a b =>
  match a, b with
  | .error x, .error y =>
    if h : x = y then isTrue (by rw [h]) else isFalse (by intro hc; cases hc; exact h rfl)
  | .ok x, .ok y =>
    if h : x = y then isTrue (by rw [h]) else isFalse (by intro hc; cases hc; exact h rfl)
  | .error _, .ok _ => isFalse (by intro hc; cases hc)
  | .ok _, .error _ => isFalse (by intro hc; cases hc)

/-- Per-call outcomes of the two collaborator calls, supplied as oracles:
`dynamo` is whether `dynamoDBDocumentClient.send(updateCommand)` (resp.
`dynamo.updateItem(...).promise()`) resolves or rejects, and `lambdaInvoke`
is the result of `lambdaClient.send(invokeCommand)` (resp.
`lambda.invoke(...).promise()`). -/
structure CallOutcomes where
  dynamo : Except Unit Unit
  lambdaInvoke : Except Unit InvokeResponse
  deriving DecidableEq

/-- The spec's error taxonomy for a rejected handler invocation. -/
inductive RelayError where
  | counterStoreError
  | downstreamInvocationError
  | malformedDownstreamResponse
  deriving DecidableEq

/-- Environment configuration read by the relay handlers. -/
structure Config where
  HITS_TABLE_NAME : String
  DOWNSTREAM_FUNCTION_NAME : String
  deriving DecidableEq

/-- What one handler call produced: its result (the fulfilled value or the
rejection, labelled by the spec's taxonomy), the trace of collaborator
operations it issued in order, and the counter store after the call. -/
structure CallResult where
  result : Except RelayError Json
  trace : List Op
  store : Store

/-- Shallow embedding of `lambdaHandler` from `src/lambda/typescript/hitcounter.ts`
(lines 24–63).  Line by line: build the `UpdateCommand` keyed by
`{ path: event.path }` with `ADD hits :incr`, `:incr = 1` (lines 35–40);
`await` its send — a rejection propagates, so the call fails with the
counter-store error and nothing further runs (line 42); emit the `hit` metric
(lines 45–46); build the `InvokeCommand` with
`Payload: Buffer.from(JSON.stringify(event))` (lines 48–51) and `await` its
send — a rejection propagates as the downstream-invocation error (line 53);
finally, if `resp.Payload` is present, `JSON.parse` it and return the parsed
value (a `SyntaxError` propagates as the malformed-response error), else
return `{}` (lines 58–62). -/
def lambdaHandlerTS (config : Config) (outcomes : CallOutcomes) (store : Store)
    (event : EventObj) : CallResult :=
  let key := List.lookup "path" event
  let incrOp := Op.updateItemAddHits config.HITS_TABLE_NAME key "ADD hits :incr" 1
  match outcomes.dynamo with
  | .error _ => ⟨.error .counterStoreError, [incrOp], store⟩
  | .ok _ =>
    let store1 := applyAddHits store config.HITS_TABLE_NAME key 1
    let metricOp := Op.putMetric "hit" 1
    let invokeOp := Op.invoke config.DOWNSTREAM_FUNCTION_NAME (stringifyJson (Json.obj event))
    match outcomes.lambdaInvoke with
    | .error _ => ⟨.error .downstreamInvocationError, [incrOp, metricOp, invokeOp], store1⟩
    | .ok resp =>
      match resp.Payload with
      | some w =>
        match parseWire w with
        | some v => ⟨.ok v, [incrOp, metricOp, invokeOp], store1⟩
        | none => ⟨.error .malformedDownstreamResponse, [incrOp, metricOp, invokeOp], store1⟩
      | none => ⟨.ok (Json.obj []), [incrOp, metricOp, invokeOp], store1⟩

/-- Shallow embedding of `lambdaHandler` from the JavaScript hit-counter
(`src/unnamed/part_000`, lines 20–57).  Identical to the TypeScript handler
up to the downstream response handling: the update is
`Key: { path: { S: event.path } }`, `ADD hits :incr`, `:incr = 1`
(lines 32–39 — same key value `event.path`, carried in the low-level `S`
wrapper), the metric is emitted (lines 42–43), the invoke payload is
`JSON.stringify(event)` (lines 46–51), and the return is
`JSON.parse(resp.Payload)` unconditionally (line 56): when `resp.Payload` is
absent, `JSON.parse(undefined)` parses the string `"undefined"` and throws a
`SyntaxError`, so the call fails with the malformed-response error. -/
def lambdaHandlerJS (config : Config) (outcomes : CallOutcomes) (store : Store)
    (event : EventObj) : CallResult :=
  let key := List.lookup "path" event
  let incrOp := Op.updateItemAddHits config.HITS_TABLE_NAME key "ADD hits :incr" 1
  match outcomes.dynamo with
  | .error _ => ⟨.error .counterStoreError, [incrOp], store⟩
  | .ok _ =>
    let store1 := applyAddHits store config.HITS_TABLE_NAME key 1
    let metricOp := Op.putMetric "hit" 1
    let invokeOp := Op.invoke config.DOWNSTREAM_FUNCTION_NAME (stringifyJson (Json.obj event))
    match outcomes.lambdaInvoke with
    | .error _ => ⟨.error .downstreamInvocationError, [incrOp, metricOp, invokeOp], store1⟩
    | .ok resp =>
      match resp.Payload with
      | some w =>
        match parseWire w with
        | some v => ⟨.ok v, [incrOp, metricOp, invokeOp], store1⟩
        | none => ⟨.error .malformedDownstreamResponse, [incrOp, metricOp, invokeOp], store1⟩
      | none => ⟨.error .malformedDownstreamResponse, [incrOp, metricOp, invokeOp], store1⟩

/-- Iterated relay calls (TypeScript handler): thread the counter store
through a sequence of calls, each with its own oracle outcomes and event. -/
def runCallsTS (config : Config) : List (CallOutcomes × EventObj) → Store → Store
  | [], store => store
  | (o, e) :: rest, store => runCallsTS config rest (lambdaHandlerTS config o store e).store

/-- Iterated relay calls for the JavaScript handler. -/
def runCallsJS (config : Config) : List (CallOutcomes × EventObj) → Store → Store
  | [], store => store
  | (o, e) :: rest, store => runCallsJS config rest (lambdaHandlerJS config o store e).store

mutual

/-- JavaScript `String(v)` for a JSON value, as used by template-literal
interpolation: `null` prints `"null"`, booleans and numbers print their
literals, strings pass through, arrays join their elements with `","`
(`Array.prototype.toString`, where a `null` element prints empty), and plain
objects print `"[object Object]"`. -/
def jsStringOfJson : Json → String
  | .null => "null"
  | .boolean true => "true"
  | .boolean false => "false"
  | .number n => toString n
  | .str s => s
  | .arr xs => jsArrayBody xs
  | .obj _ => "[object Object]"

/-- The comma-joined body of `Array.prototype.toString`. -/
def jsArrayBody : List Json → String
  | [] => ""
  | [Json.null] => ""
  | [e] => jsStringOfJson e
  | Json.null :: rest => "," ++ jsArrayBody rest
  | e :: rest => jsStringOfJson e ++ "," ++ jsArrayBody rest

end

/-- JavaScript template interpolation `${x}` where `x` may be `undefined`
(modelled as `none`): `undefined` prints `"undefined"`. -/
def jsTemplate : Option Json → String
  | none => "undefined"
  | some v => jsStringOfJson v

/-- The value returned by the hello handlers (an API Gateway proxy result). -/
structure HelloResponse where
  statusCode : Nat
  headers : List (String × String)
  body : String
  deriving DecidableEq

/-- Shallow embedding of the downstream hello `lambdaHandler`
(`src/unnamed/part_000`: JS variant lines 82–98 and TS variant lines 118–134,
whose returned values are identical): after the logging/tracing calls (not
modelled), return `{ statusCode: 200, headers: { 'Content-Type': 'text/plain' },
body: `Hello, World! You've hit "${event.path}".\n` }`. -/
def helloLambdaHandler (event : EventObj) : HelloResponse :=
  { statusCode := 200
    headers := [("Content-Type", "text/plain")]
    body := "Hello, World! You've hit \"" ++ jsTemplate (List.lookup "path" event) ++ "\".\n" }

/-! ## Concrete values used by the witness theorems -/

/-- A concrete configuration. -/
def cfg0 : Config := ⟨"Hits", "HelloFunction"⟩

/-- The empty counter store: every `hits` attribute at its implicit 0. -/
def store0 : Store := fun _ _ => 0

/-- A concrete request event, `{ path: "/foo" }`. -/
def ev0 : EventObj := [("path", Json.str "/foo")]

/-- A concrete request event with no `path` field. -/
def evNoPath : EventObj := [("userAgent", Json.str "curl")]

/-- The downstream response payload of the spec's round-trip example:
`{statusCode: 200, body: "Hello, World! You've hit \"/foo\".\n"}`. -/
def fooPayload : Json :=
  Json.obj [("statusCode", Json.number 200),
            ("body", Json.str "Hello, World! You've hit \"/foo\".\n")]

/-! ## Claim theorems -/

/-- C1: if the counter-store increment fails, both relay handlers fail the
whole request with `CounterStoreError`, issue no downstream invocation at all
(the trace has no invoke operation), and leave the counter store unchanged. -/
theorem relay_counterStoreFailure_noDownstream (config : Config)
    (outcomes : CallOutcomes) (store : Store) (event : EventObj)
    (hdyn : outcomes.dynamo = .error ()) :
    ((lambdaHandlerTS config outcomes store event).result = .error .counterStoreError ∧
      (lambdaHandlerTS config outcomes store event).trace.filter Op.isInvoke = [] ∧
      (lambdaHandlerTS config outcomes store event).store = store) ∧
    ((lambdaHandlerJS config outcomes store event).result = .error .counterStoreError ∧
      (lambdaHandlerJS config outcomes store event).trace.filter Op.isInvoke = [] ∧
      (lambdaHandlerJS config outcomes store event).store = store) := by
  simp [lambdaHandlerTS, lambdaHandlerJS, hdyn, Op.isInvoke, List.filter]

/-- Witness for C1 at a concrete failing increment. -/
theorem relay_counterStoreFailure_noDownstream_witness :
    ((lambdaHandlerTS cfg0 ⟨.error (), .ok ⟨none⟩⟩ store0 ev0).result
        = .error .counterStoreError ∧
      (lambdaHandlerTS cfg0 ⟨.error (), .ok ⟨none⟩⟩ store0 ev0).trace.filter Op.isInvoke = [] ∧
      (lambdaHandlerTS cfg0 ⟨.error (), .ok ⟨none⟩⟩ store0 ev0).store = store0) ∧
    ((lambdaHandlerJS cfg0 ⟨.error (), .ok ⟨none⟩⟩ store0 ev0).result
        = .error .counterStoreError ∧
      (lambdaHandlerJS cfg0 ⟨.error (), .ok ⟨none⟩⟩ store0 ev0).trace.filter Op.isInvoke = [] ∧
      (lambdaHandlerJS cfg0 ⟨.error (), .ok ⟨none⟩⟩ store0 ev0).store = store0) :=
  relay_counterStoreFailure_noDownstream cfg0 ⟨.error (), .ok ⟨none⟩⟩ store0 ev0 rfl

/-- C2: if the increment succeeds but the downstream invocation fails, both
relay handlers fail with `DownstreamInvocationError` while the counter for the
request's path stays incremented (the store equals the incremented store; in
particular the `hits` value for the path grew by 1 — no rollback). -/
theorem relay_downstreamFailure_counterKept (config : Config)
    (outcomes : CallOutcomes) (store : Store) (event : EventObj)
    (hdyn : outcomes.dynamo = .ok ())
    (hlam : outcomes.lambdaInvoke = .error ()) :
    ((lambdaHandlerTS config outcomes store event).result = .error .downstreamInvocationError ∧
      (lambdaHandlerTS config outcomes store event).store
        = applyAddHits store config.HITS_TABLE_NAME (List.lookup "path" event) 1 ∧
      (lambdaHandlerTS config outcomes store event).store
          config.HITS_TABLE_NAME (List.lookup "path" event)
        = store config.HITS_TABLE_NAME (List.lookup "path" event) + 1) ∧
    ((lambdaHandlerJS config outcomes store event).result = .error .downstreamInvocationError ∧
      (lambdaHandlerJS config outcomes store event).store
        = applyAddHits store config.HITS_TABLE_NAME (List.lookup "path" event) 1 ∧
      (lambdaHandlerJS config outcomes store event).store
          config.HITS_TABLE_NAME (List.lookup "path" event)
        = store config.HITS_TABLE_NAME (List.lookup "path" event) + 1) := by
  simp [lambdaHandlerTS, lambdaHandlerJS, hdyn, hlam, applyAddHits]

/-- Witness for C2 at a concrete failing downstream invocation. -/
theorem relay_downstreamFailure_counterKept_witness :
    ((lambdaHandlerTS cfg0 ⟨.ok (), .error ()⟩ store0 ev0).result
        = .error .downstreamInvocationError ∧
      (lambdaHandlerTS cfg0 ⟨.ok (), .error ()⟩ store0 ev0).store
        = applyAddHits store0 cfg0.HITS_TABLE_NAME (List.lookup "path" ev0) 1 ∧
      (lambdaHandlerTS cfg0 ⟨.ok (), .error ()⟩ store0 ev0).store
          cfg0.HITS_TABLE_NAME (List.lookup "path" ev0)
        = store0 cfg0.HITS_TABLE_NAME (List.lookup "path" ev0) + 1) ∧
    ((lambdaHandlerJS cfg0 ⟨.ok (), .error ()⟩ store0 ev0).result
        = .error .downstreamInvocationError ∧
      (lambdaHandlerJS cfg0 ⟨.ok (), .error ()⟩ store0 ev0).store
        = applyAddHits store0 cfg0.HITS_TABLE_NAME (List.lookup "path" ev0) 1 ∧
      (lambdaHandlerJS cfg0 ⟨.ok (), .error ()⟩ store0 ev0).store
          cfg0.HITS_TABLE_NAME (List.lookup "path" ev0)
        = store0 cfg0.HITS_TABLE_NAME (List.lookup "path" ev0) + 1) :=
  relay_downstreamFailure_counterKept cfg0 ⟨.ok (), .error ()⟩ store0 ev0 rfl rfl

/-- C3 counterexample: the claim says an absent downstream payload makes
`handle` fail with `MalformedDownstreamResponse`, but at the concrete input
below (increment succeeds, invoke succeeds with `resp.Payload` undefined) the
TypeScript handler returns the empty object `{}` — a silently empty default
response, not an error. -/
theorem relay_absentPayload_returnsEmptyObject :
    (lambdaHandlerTS cfg0 ⟨.ok (), .ok ⟨none⟩⟩ store0 ev0).result = .ok (Json.obj []) ∧
    (lambdaHandlerTS cfg0 ⟨.ok (), .ok ⟨none⟩⟩ store0 ev0).result
      ≠ .error .malformedDownstreamResponse := by
  refine ⟨rfl, ?_⟩
  decide

/-- C3 (amended): when the downstream invocation succeeds and its payload is
present but cannot be parsed, both relay handlers fail with
`MalformedDownstreamResponse`; when the payload is absent, the TypeScript
handler instead returns the empty object `{}` while the JavaScript handler
(whose `JSON.parse(undefined)` throws) still fails with
`MalformedDownstreamResponse`. -/
theorem relay_malformedPayload (config : Config) (outcomes : CallOutcomes)
    (store : Store) (event : EventObj) (w : Wire)
    (hdyn : outcomes.dynamo = .ok ())
    (hlam : outcomes.lambdaInvoke = .ok ⟨some w⟩)
    (hw : parseWire w = none) :
    (lambdaHandlerTS config outcomes store event).result
        = .error .malformedDownstreamResponse ∧
    (lambdaHandlerJS config outcomes store event).result
        = .error .malformedDownstreamResponse ∧
    (lambdaHandlerTS config ⟨.ok (), .ok ⟨none⟩⟩ store event).result = .ok (Json.obj []) ∧
    (lambdaHandlerJS config ⟨.ok (), .ok ⟨none⟩⟩ store event).result
        = .error .malformedDownstreamResponse := by
  refine ⟨?_, ?_, rfl, rfl⟩ <;> simp [lambdaHandlerTS, lambdaHandlerJS, hdyn, hlam, hw]

/-- Witness for the amended C3 at a concrete garbage payload. -/
theorem relay_malformedPayload_witness :
    (lambdaHandlerTS cfg0 ⟨.ok (), .ok ⟨some (Wire.garbage "not json")⟩⟩ store0 ev0).result
        = .error .malformedDownstreamResponse ∧
    (lambdaHandlerJS cfg0 ⟨.ok (), .ok ⟨some (Wire.garbage "not json")⟩⟩ store0 ev0).result
        = .error .malformedDownstreamResponse ∧
    (lambdaHandlerTS cfg0 ⟨.ok (), .ok ⟨none⟩⟩ store0 ev0).result = .ok (Json.obj []) ∧
    (lambdaHandlerJS cfg0 ⟨.ok (), .ok ⟨none⟩⟩ store0 ev0).result
        = .error .malformedDownstreamResponse :=
  relay_malformedPayload cfg0 ⟨.ok (), .ok ⟨some (Wire.garbage "not json")⟩⟩ store0 ev0
    (Wire.garbage "not json") rfl rfl rfl

/-- C4: when the increment and the downstream invocation both succeed and the
downstream payload is the serialization of a value `v`, both relay handlers
return exactly `v` — the downstream response payload unchanged. -/
theorem relay_roundTrip (config : Config) (outcomes : CallOutcomes)
    (store : Store) (event : EventObj) (v : Json)
    (hdyn : outcomes.dynamo = .ok ())
    (hlam : outcomes.lambdaInvoke = .ok ⟨some (stringifyJson v)⟩) :
    (lambdaHandlerTS config outcomes store event).result = .ok v ∧
    (lambdaHandlerJS config outcomes store event).result = .ok v := by
  constructor <;> simp [lambdaHandlerTS, lambdaHandlerJS, hdyn, hlam, stringifyJson, parseWire]

/-- Witness for C4 at the spec's concrete round-trip example: downstream
payload `{statusCode: 200, body: "Hello, World! You've hit \"/foo\".\n"}` and
request `{path: "/foo"}`. -/
theorem relay_roundTrip_witness :
    (lambdaHandlerTS cfg0 ⟨.ok (), .ok ⟨some (stringifyJson fooPayload)⟩⟩ store0 ev0).result
        = .ok fooPayload ∧
    (lambdaHandlerJS cfg0 ⟨.ok (), .ok ⟨some (stringifyJson fooPayload)⟩⟩ store0 ev0).result
        = .ok fooPayload :=
  relay_roundTrip cfg0 ⟨.ok (), .ok ⟨some (stringifyJson fooPayload)⟩⟩ store0 ev0
    fooPayload rfl rfl

/-- C5: under every collaborator outcome, one call of the TypeScript relay
handler issues exactly one counter-store mutation — a single `ADD hits :incr`
update (the atomic DynamoDB add, not a read-then-write), on the configured
table, keyed by the request's `path` value verbatim, with amount 1 — and no
other counter mutation and no retry. -/
theorem relay_singleAtomicIncrement (config : Config) (outcomes : CallOutcomes)
    (store : Store) (event : EventObj) :
    (lambdaHandlerTS config outcomes store event).trace.filter Op.isCounterMutation
      = [Op.updateItemAddHits config.HITS_TABLE_NAME (List.lookup "path" event)
          "ADD hits :incr" 1] := by
  obtain ⟨d, l⟩ := outcomes
  cases d with
  | error u => simp [lambdaHandlerTS, Op.isCounterMutation, List.filter]
  | ok u =>
    cases l with
    | error e => simp [lambdaHandlerTS, Op.isCounterMutation, List.filter]
    | ok resp =>
      obtain ⟨p⟩ := resp
      cases p with
      | none => simp [lambdaHandlerTS, Op.isCounterMutation, List.filter]
      | some w =>
        cases w <;> simp [lambdaHandlerTS, Op.isCounterMutation, List.filter, parseWire]

/-- C7: one relay call is a strict two-phase sequence.  Either the increment
fails, and then the trace holds only the increment operation (nothing
downstream was issued) and the store is unchanged; or the increment succeeds,
and then the trace is the increment, then the metric, then the downstream
invocation — so the increment is observably applied (the returned store
already holds it) no later than the invocation is issued, and the result is
produced only after the invocation's outcome is known. -/
theorem relay_incrementBeforeInvoke (config : Config) (outcomes : CallOutcomes)
    (store : Store) (event : EventObj) :
    (outcomes.dynamo = .error () ∧
      (lambdaHandlerTS config outcomes store event).trace
        = [Op.updateItemAddHits config.HITS_TABLE_NAME (List.lookup "path" event)
            "ADD hits :incr" 1] ∧
      (lambdaHandlerJS config outcomes store event).trace
        = [Op.updateItemAddHits config.HITS_TABLE_NAME (List.lookup "path" event)
            "ADD hits :incr" 1] ∧
      (lambdaHandlerTS config outcomes store event).store = store ∧
      (lambdaHandlerJS config outcomes store event).store = store) ∨
    (outcomes.dynamo = .ok () ∧
      (lambdaHandlerTS config outcomes store event).trace
        = [Op.updateItemAddHits config.HITS_TABLE_NAME (List.lookup "path" event)
            "ADD hits :incr" 1,
           Op.putMetric "hit" 1,
           Op.invoke config.DOWNSTREAM_FUNCTION_NAME (stringifyJson (Json.obj event))] ∧
      (lambdaHandlerJS config outcomes store event).trace
        = [Op.updateItemAddHits config.HITS_TABLE_NAME (List.lookup "path" event)
            "ADD hits :incr" 1,
           Op.putMetric "hit" 1,
           Op.invoke config.DOWNSTREAM_FUNCTION_NAME (stringifyJson (Json.obj event))] ∧
      (lambdaHandlerTS config outcomes store event).store
        = applyAddHits store config.HITS_TABLE_NAME (List.lookup "path" event) 1 ∧
      (lambdaHandlerJS config outcomes store event).store
        = applyAddHits store config.HITS_TABLE_NAME (List.lookup "path" event) 1) := by
  obtain ⟨d, l⟩ := outcomes
  cases d with
  | error u =>
    cases u
    exact Or.inl ⟨rfl, rfl, rfl, rfl, rfl⟩
  | ok u =>
    cases u
    refine Or.inr ⟨rfl, ?_, ?_, ?_, ?_⟩ <;>
      cases l with
      | error e => rfl
      | ok resp =>
        obtain ⟨p⟩ := resp
        cases p with
        | none => rfl
        | some w => cases w <;> rfl

/-- C8: the payload handed to the downstream invoker, whenever one is issued,
is the serialization of the full original event, and deserializing it gives
back exactly the original event with every field intact — the relay forwards
the request opaquely and mutates nothing. -/
theorem relay_forwardsRequestUnmodified (config : Config) (outcomes : CallOutcomes)
    (store : Store) (event : EventObj) :
    ((lambdaHandlerTS config outcomes store event).trace.filter Op.isInvoke = [] ∨
      (lambdaHandlerTS config outcomes store event).trace.filter Op.isInvoke
        = [Op.invoke config.DOWNSTREAM_FUNCTION_NAME (stringifyJson (Json.obj event))]) ∧
    ((lambdaHandlerJS config outcomes store event).trace.filter Op.isInvoke = [] ∨
      (lambdaHandlerJS config outcomes store event).trace.filter Op.isInvoke
        = [Op.invoke config.DOWNSTREAM_FUNCTION_NAME (stringifyJson (Json.obj event))]) ∧
    parseWire (stringifyJson (Json.obj event)) = some (Json.obj event) := by
  refine ⟨?_, ?_, rfl⟩ <;>
    · obtain ⟨d, l⟩ := outcomes
      cases d with
      | error u => simp [lambdaHandlerTS, lambdaHandlerJS, Op.isInvoke, List.filter]
      | ok u =>
        cases l with
        | error e => simp [lambdaHandlerTS, lambdaHandlerJS, Op.isInvoke, List.filter]
        | ok resp =>
          obtain ⟨p⟩ := resp
          cases p with
          | none => simp [lambdaHandlerTS, lambdaHandlerJS, Op.isInvoke, List.filter]
          | some w =>
            cases w <;> simp [lambdaHandlerTS, lambdaHandlerJS, Op.isInvoke, List.filter, parseWire]

/-- C9: the relay validates nothing itself.  For every event — including one
with no `path` field or an empty one — the first operation either handler
issues is always the counter increment keyed by the event's `path` value
as-is (`none` standing for `undefined`); and when both collaborators succeed
with a parseable payload the call succeeds, so any rejection originates with
a collaborator, never with relay-side validation. -/
theorem relay_noRequestValidation (config : Config) (outcomes : CallOutcomes)
    (store : Store) (event : EventObj) (v : Json)
    (hdyn : outcomes.dynamo = .ok ())
    (hlam : outcomes.lambdaInvoke = .ok ⟨some (stringifyJson v)⟩) :
    (∀ oc : CallOutcomes,
      (lambdaHandlerTS config oc store event).trace.head?
        = some (Op.updateItemAddHits config.HITS_TABLE_NAME (List.lookup "path" event)
            "ADD hits :incr" 1) ∧
      (lambdaHandlerJS config oc store event).trace.head?
        = some (Op.updateItemAddHits config.HITS_TABLE_NAME (List.lookup "path" event)
            "ADD hits :incr" 1)) ∧
    (lambdaHandlerTS config outcomes store event).result = .ok v ∧
    (lambdaHandlerJS config outcomes store event).result = .ok v := by
  refine ⟨?_, ?_, ?_⟩
  · intro oc
    obtain ⟨d, l⟩ := oc
    constructor <;>
      · cases d with
        | error u => rfl
        | ok u =>
          cases l with
          | error e => rfl
          | ok resp =>
            obtain ⟨p⟩ := resp
            cases p with
            | none => rfl
            | some w => cases w <;> rfl
  · simp [lambdaHandlerTS, hdyn, hlam, stringifyJson, parseWire]
  · simp [lambdaHandlerJS, hdyn, hlam, stringifyJson, parseWire]

/-- Collaborator outcomes where both calls succeed and the downstream payload
is the serialization of JSON `null`. -/
def okNullOutcomes : CallOutcomes := ⟨.ok (), .ok ⟨some (stringifyJson Json.null)⟩⟩

/-- Witness for C9 at a concrete event with no `path` field. -/
theorem relay_noRequestValidation_witness :
    List.lookup "path" evNoPath = none ∧
    (lambdaHandlerTS cfg0 okNullOutcomes store0 evNoPath).trace.head?
      = some (Op.updateItemAddHits cfg0.HITS_TABLE_NAME (List.lookup "path" evNoPath)
          "ADD hits :incr" 1) ∧
    (lambdaHandlerTS cfg0 okNullOutcomes store0 evNoPath).result = .ok Json.null ∧
    (lambdaHandlerJS cfg0 okNullOutcomes store0 evNoPath).result = .ok Json.null := by
  have h := relay_noRequestValidation cfg0 okNullOutcomes store0 evNoPath Json.null rfl rfl
  exact ⟨rfl, (h.1 okNullOutcomes).1, h.2.1, h.2.2⟩

/-- Store effect of one TypeScript relay call whose increment succeeds. -/
theorem handlerTS_store_ok (config : Config) (outcomes : CallOutcomes) (store : Store)
    (event : EventObj) (hdyn : outcomes.dynamo = .ok ()) :
    (lambdaHandlerTS config outcomes store event).store
      = applyAddHits store config.HITS_TABLE_NAME (List.lookup "path" event) 1 := by
  cases hl : outcomes.lambdaInvoke with
  | error e => simp [lambdaHandlerTS, hdyn, hl]
  | ok resp =>
    obtain ⟨p⟩ := resp
    cases p with
    | none => simp [lambdaHandlerTS, hdyn, hl]
    | some w => cases w <;> simp [lambdaHandlerTS, hdyn, hl, parseWire]

/-- Store effect of one JavaScript relay call whose increment succeeds. -/
theorem handlerJS_store_ok (config : Config) (outcomes : CallOutcomes) (store : Store)
    (event : EventObj) (hdyn : outcomes.dynamo = .ok ()) :
    (lambdaHandlerJS config outcomes store event).store
      = applyAddHits store config.HITS_TABLE_NAME (List.lookup "path" event) 1 := by
  cases hl : outcomes.lambdaInvoke with
  | error e => simp [lambdaHandlerJS, hdyn, hl]
  | ok resp =>
    obtain ⟨p⟩ := resp
    cases p with
    | none => simp [lambdaHandlerJS, hdyn, hl]
    | some w => cases w <;> simp [lambdaHandlerJS, hdyn, hl, parseWire]

/-- Store effect of one TypeScript relay call whose increment fails. -/
theorem handlerTS_store_err (config : Config) (outcomes : CallOutcomes) (store : Store)
    (event : EventObj) (hdyn : outcomes.dynamo = .error ()) :
    (lambdaHandlerTS config outcomes store event).store = store := by
  simp [lambdaHandlerTS, hdyn]

/-- Store effect of one JavaScript relay call whose increment fails. -/
theorem handlerJS_store_err (config : Config) (outcomes : CallOutcomes) (store : Store)
    (event : EventObj) (hdyn : outcomes.dynamo = .error ()) :
    (lambdaHandlerJS config outcomes store event).store = store := by
  simp [lambdaHandlerJS, hdyn]

/-- One TypeScript relay call never shrinks any counter. -/
theorem handlerTS_store_le (config : Config) (outcomes : CallOutcomes) (store : Store)
    (event : EventObj) (t : String) (k : Option Json) :
    store t k ≤ (lambdaHandlerTS config outcomes store event).store t k := by
  cases hd : outcomes.dynamo with
  | error u =>
    cases u
    rw [handlerTS_store_err config outcomes store event hd]
  | ok u =>
    cases u
    rw [handlerTS_store_ok config outcomes store event hd]
    simp only [applyAddHits]
    split <;> omega

/-- One JavaScript relay call never shrinks any counter. -/
theorem handlerJS_store_le (config : Config) (outcomes : CallOutcomes) (store : Store)
    (event : EventObj) (t : String) (k : Option Json) :
    store t k ≤ (lambdaHandlerJS config outcomes store event).store t k := by
  cases hd : outcomes.dynamo with
  | error u =>
    cases u
    rw [handlerJS_store_err config outcomes store event hd]
  | ok u =>
    cases u
    rw [handlerJS_store_ok config outcomes store event hd]
    simp only [applyAddHits]
    split <;> omega

/-- Across any sequence of TypeScript relay calls, counters never decrease. -/
theorem runCallsTS_le (config : Config) :
    ∀ (calls : List (CallOutcomes × EventObj)) (store : Store) (t : String) (k : Option Json),
      store t k ≤ runCallsTS config calls store t k
  | [], _, _, _ => le_refl _
  | (o, e) :: rest, store, t, k =>
    le_trans (handlerTS_store_le config o store e t k)
      (runCallsTS_le config rest (lambdaHandlerTS config o store e).store t k)

/-- Across any sequence of JavaScript relay calls, counters never decrease. -/
theorem runCallsJS_le (config : Config) :
    ∀ (calls : List (CallOutcomes × EventObj)) (store : Store) (t : String) (k : Option Json),
      store t k ≤ runCallsJS config calls store t k
  | [], _, _, _ => le_refl _
  | (o, e) :: rest, store, t, k =>
    le_trans (handlerJS_store_le config o store e t k)
      (runCallsJS_le config rest (lambdaHandlerJS config o store e).store t k)

/-- Counting lemma: when every increment succeeds, a sequence of TypeScript
relay calls grows each counter by exactly the number of calls addressing it. -/
theorem runCallsTS_hits (config : Config) (calls : List (CallOutcomes × EventObj)) :
    ∀ (store : Store), (∀ c ∈ calls, c.1.dynamo = Except.ok ()) →
    ∀ (t : String) (k : Option Json),
    runCallsTS config calls store t k
      = store t k
        + List.countP
            (fun c => decide (t = config.HITS_TABLE_NAME ∧ k = List.lookup "path" c.2)) calls := by
  induction calls with
  | nil => intro store _ t k; simp [runCallsTS]
  | cons c rest ih =>
    intro store h t k
    obtain ⟨o, e⟩ := c
    have ho : o.dynamo = Except.ok () := h (o, e) (List.mem_cons_self _ _)
    have hrest : ∀ c ∈ rest, c.1.dynamo = Except.ok () :=
      fun c hc => h c (List.mem_cons_of_mem _ hc)
    show runCallsTS config rest (lambdaHandlerTS config o store e).store t k = _
    rw [ih (lambdaHandlerTS config o store e).store hrest t k,
      handlerTS_store_ok config o store e ho]
    simp only [applyAddHits, List.countP_cons]
    by_cases hcond : t = config.HITS_TABLE_NAME ∧ k = List.lookup "path" e
    · simp only [if_pos hcond, decide_eq_true_eq, hcond, and_self, if_pos]
      omega
    · simp only [if_neg hcond, decide_eq_true_eq, hcond, if_false]
      omega

/-- Counting lemma for the JavaScript relay handler. -/
theorem runCallsJS_hits (config : Config) (calls : List (CallOutcomes × EventObj)) :
    ∀ (store : Store), (∀ c ∈ calls, c.1.dynamo = Except.ok ()) →
    ∀ (t : String) (k : Option Json),
    runCallsJS config calls store t k
      = store t k
        + List.countP
            (fun c => decide (t = config.HITS_TABLE_NAME ∧ k = List.lookup "path" c.2)) calls := by
  induction calls with
  | nil => intro store _ t k; simp [runCallsJS]
  | cons c rest ih =>
    intro store h t k
    obtain ⟨o, e⟩ := c
    have ho : o.dynamo = Except.ok () := h (o, e) (List.mem_cons_self _ _)
    have hrest : ∀ c ∈ rest, c.1.dynamo = Except.ok () :=
      fun c hc => h c (List.mem_cons_of_mem _ hc)
    show runCallsJS config rest (lambdaHandlerJS config o store e).store t k = _
    rw [ih (lambdaHandlerJS config o store e).store hrest t k,
      handlerJS_store_ok config o store e ho]
    simp only [applyAddHits, List.countP_cons]
    by_cases hcond : t = config.HITS_TABLE_NAME ∧ k = List.lookup "path" e
    · simp only [if_pos hcond, decide_eq_true_eq, hcond, and_self, if_pos]
      omega
    · simp only [if_neg hcond, decide_eq_true_eq, hcond, if_false]
      omega

/-- C6: for every path `P`, running any number of relay calls whose events all
carry `path = P`, with both collaborators succeeding on every call, grows the
stored counter for `P` on the configured table by exactly the number of calls,
leaves every other table/key cell unchanged (the `if` is 0 there), and — for
arbitrary call sequences with arbitrary outcomes — no counter ever decreases
or resets.  Holds for both relay handlers. -/
theorem relay_hitCountAdditivity (config : Config) (P : String)
    (calls : List (CallOutcomes × EventObj)) (store : Store)
    (hok : ∀ c ∈ calls, c.1.dynamo = Except.ok () ∧ (c.1.lambdaInvoke).isOk = true)
    (hpath : ∀ c ∈ calls, List.lookup "path" c.2 = some (Json.str P)) :
    (∀ (t : String) (k : Option Json),
      runCallsTS config calls store t k
        = store t k
          + if t = config.HITS_TABLE_NAME ∧ k = some (Json.str P) then calls.length else 0) ∧
    (∀ (t : String) (k : Option Json),
      runCallsJS config calls store t k
        = store t k
          + if t = config.HITS_TABLE_NAME ∧ k = some (Json.str P) then calls.length else 0) ∧
    (∀ (calls2 : List (CallOutcomes × EventObj)) (t : String) (k : Option Json),
      store t k ≤ runCallsTS config calls2 store t k ∧
      store t k ≤ runCallsJS config calls2 store t k) := by
  have hdy : ∀ c ∈ calls, c.1.dynamo = Except.ok () := fun c hc => (hok c hc).1
  refine ⟨?_, ?_, fun calls2 t k =>
    ⟨runCallsTS_le config calls2 store t k, runCallsJS_le config calls2 store t k⟩⟩
  · intro t k
    rw [runCallsTS_hits config calls store hdy t k]
    congr 1
    by_cases hcond : t = config.HITS_TABLE_NAME ∧ k = some (Json.str P)
    · rw [if_pos hcond]
      apply List.countP_eq_length.mpr
      intro c hc
      simp only [hpath c hc, decide_eq_true_eq]
      exact hcond
    · rw [if_neg hcond]
      apply List.countP_eq_zero.mpr
      intro c hc
      simp only [hpath c hc, decide_eq_true_eq]
      exact hcond
  · intro t k
    rw [runCallsJS_hits config calls store hdy t k]
    congr 1
    by_cases hcond : t = config.HITS_TABLE_NAME ∧ k = some (Json.str P)
    · rw [if_pos hcond]
      apply List.countP_eq_length.mpr
      intro c hc
      simp only [hpath c hc, decide_eq_true_eq]
      exact hcond
    · rw [if_neg hcond]
      apply List.countP_eq_zero.mpr
      intro c hc
      simp only [hpath c hc, decide_eq_true_eq]
      exact hcond

/-- Two successful relay calls for `{path: "/foo"}`. -/
def demoCalls : List (CallOutcomes × EventObj) := [(okNullOutcomes, ev0), (okNullOutcomes, ev0)]

/-- Witness for C6: two successful calls for `/foo` on the empty store leave
`/foo` at 2 and `/bar` untouched at 0. -/
theorem relay_hitCountAdditivity_witness :
    runCallsTS cfg0 demoCalls store0 "Hits" (some (Json.str "/foo")) = 2 ∧
    runCallsJS cfg0 demoCalls store0 "Hits" (some (Json.str "/foo")) = 2 ∧
    runCallsTS cfg0 demoCalls store0 "Hits" (some (Json.str "/bar")) = 0 := by
  have h := relay_hitCountAdditivity cfg0 "/foo" demoCalls store0 (by decide) (by decide)
  refine ⟨?_, ?_, ?_⟩
  · rw [h.1 "Hits" (some (Json.str "/foo"))]; decide
  · rw [h.2.1 "Hits" (some (Json.str "/foo"))]; decide
  · rw [h.1 "Hits" (some (Json.str "/bar"))]; decide

/-- C10: the hello handler returns, for every event, statusCode 200 with the
`Content-Type: text/plain` header and the template body interpolating the
event's `path` (it can return no other status code); for an event whose path
is the string `p` the response is exactly
`{statusCode: 200, headers: {Content-Type: text/plain}, body: "Hello, World! You've hit \"p\".\n"}`. -/
theorem hello_contract (event : EventObj) (p : String)
    (hpath : List.lookup "path" event = some (Json.str p)) :
    helloLambdaHandler event
      = ⟨200, [("Content-Type", "text/plain")],
          "Hello, World! You've hit \"" ++ p ++ "\".\n"⟩ ∧
    (∀ e2 : EventObj,
      (helloLambdaHandler e2).statusCode = 200 ∧
      (helloLambdaHandler e2).headers = [("Content-Type", "text/plain")] ∧
      (helloLambdaHandler e2).body
        = "Hello, World! You've hit \"" ++ jsTemplate (List.lookup "path" e2) ++ "\".\n") := by
  refine ⟨?_, fun e2 => ⟨rfl, rfl, rfl⟩⟩
  simp [helloLambdaHandler, hpath, jsTemplate, jsStringOfJson]

/-- Witness for C10 at the concrete event `{path: "/foo"}`. -/
theorem hello_contract_witness :
    helloLambdaHandler ev0
      = ⟨200, [("Content-Type", "text/plain")],
          "Hello, World! You've hit \"" ++ "/foo" ++ "\".\n"⟩ :=
  (hello_contract ev0 "/foo" rfl).1
